import Mathlib

/-!
Verification of the fan-state core of esphomelib
(`src/esphomelib/fan/fan_state.h`): the shared `FanState` object with its
change-notification fan-out, and the three chainable automation actions
`TurnOnAction`, `TurnOffAction` and `ToggleAction`.

Only the header is among the sources, so the bodies declared there but
implemented elsewhere (the `FanState` setters, `CallbackManager`,
`TemplatableValue`, `play_next`) are modelled from the specification; the
template bodies of the three actions and the default member initializers are
embedded directly from the header.

Observers are pure callbacks in the C++ code; here they are identified by
numeric ids, and every observable step (a stored mutation, an observer
invocation, the hand-off to the next chained action) is recorded as an event
in an append-only log carried inside the state, so that invocation counts
and ordering become provable facts about the log.
-/

/-- Simple enum to represent the speed of a fan (fan_state.h lines 23 to 28). -/
inductive FanSpeed
  | FAN_SPEED_OFF
  | FAN_SPEED_LOW
  | FAN_SPEED_MEDIUM
  | FAN_SPEED_HIGH
  deriving DecidableEq, Repr

instance : Inhabited FanSpeed := ⟨FanSpeed.FAN_SPEED_OFF⟩

/-- Modelled from the spec: the capability descriptor `FanTraits`
(fan_traits.h is not among the sources).  Spec section 3: it records which of
oscillation and speed control this fan instance supports. -/
structure FanTraits where
  supports_oscillation : Bool := false
  supports_speed : Bool := false
  deriving DecidableEq, Repr

/-- An observable event of the fan-state core: a mutation actually stored, a
registered observer being invoked, or the hand-off to the next chained
action at the end of an action's `play`. -/
inductive FanEvent
  | stateStored (b : Bool)
  | oscillatingStored (b : Bool)
  | speedStored (sp : FanSpeed)
  | observerCalled (id : Nat)
  | nextPlayed
  deriving DecidableEq, Repr

/-- The shared fan state (fan_state.h lines 44 to 88).  The default member
initializers come from lines 83 to 86: power off, not oscillating, speed
HIGH, empty traits.  `callbacks_` models the
`CallbackManager<void()> state_callback_` member as the registration-ordered
list of observer ids, and `log` is the append-only event log. -/
structure FanState where
  state_ : Bool := false
  oscillating_ : Bool := false
  speed_ : FanSpeed := FanSpeed.FAN_SPEED_HIGH
  traits_ : FanTraits := {}
  callbacks_ : List Nat := []
  log : List FanEvent := []
  deriving DecidableEq, Repr

/-- A freshly constructed fan state: every member takes its default
initializer from fan_state.h lines 83 to 87. -/
def FanState.fresh : FanState := {}

/-- Get the current ON/OFF state of this fan (fan_state.h line 53). -/
def FanState.get_state (s : FanState) : Bool := s.state_

/-- Get the current oscillating state of this fan (fan_state.h line 57). -/
def FanState.is_oscillating (s : FanState) : Bool := s.oscillating_

/-- Get the current speed of this fan (fan_state.h line 61). -/
def FanState.get_speed (s : FanState) : FanSpeed := s.speed_

/-- Get the traits of this fan (fan_state.h line 66). -/
def FanState.get_traits (s : FanState) : FanTraits := s.traits_

/-- Register a callback that will be called each time the state changes
(fan_state.h line 50); the observer id is appended, so `callbacks_` lists
observers in registration order. -/
def FanState.add_on_state_change_callback (s : FanState) (id : Nat) : FanState :=
  { s with callbacks_ := s.callbacks_ ++ [id] }

/-- Modelled from the spec: `CallbackManager<void()>::call` (helpers.h is not
among the sources).  Spec section 4.1 and 5: every registered observer is
invoked synchronously, in registration order, before the setter returns;
each invocation is recorded as an `observerCalled` event. -/
def FanState.state_callback_call (s : FanState) : FanState :=
  { s with log := s.log ++ s.callbacks_.map FanEvent.observerCalled }

/-- Modelled from the spec: the body of `FanState::set_state` (fan_state.cpp
is not among the sources).  Spec section 4.1: set_state unconditionally
stores the value and fires the change notification, even if the value is
unchanged. -/
def FanState.set_state (s : FanState) (b : Bool) : FanState :=
  FanState.state_callback_call
    { s with state_ := b, log := s.log ++ [FanEvent.stateStored b] }

/-- Modelled from the spec: the body of `FanState::set_oscillating`
(fan_state.cpp is not among the sources).  Spec section 4.1: same
store-then-notify contract as `set_state`, independent of power state. -/
def FanState.set_oscillating (s : FanState) (b : Bool) : FanState :=
  FanState.state_callback_call
    { s with oscillating_ := b, log := s.log ++ [FanEvent.oscillatingStored b] }

/-- Modelled from the spec: the body of the enum overload
`FanState::set_speed(FanSpeed)` (fan_state.cpp is not among the sources).
Spec section 4.1: same store-then-notify contract for the four-valued
speed. -/
def FanState.set_speed (s : FanState) (sp : FanSpeed) : FanState :=
  FanState.state_callback_call
    { s with speed_ := sp, log := s.log ++ [FanEvent.speedStored sp] }

/-- Modelled from the spec: the body of `FanState::set_traits` (fan_state.cpp
is not among the sources).  Spec section 4.1: the capability descriptor is
metadata, so its mutator does not trigger the change notification. -/
def FanState.set_traits (s : FanState) (t : FanTraits) : FanState :=
  { s with traits_ := t }

/-- Modelled from the spec: the body of the textual overload
`bool FanState::set_speed(const char*)` (fan_state.cpp is not among the
sources).  Spec sections 4.1 and 6: a recognized token, one of the names of
the four speed levels, maps to the corresponding enum value and is applied
via the enum setter; an unrecognized token fails without mutating state, and
the boolean return signals success or failure. -/
def FanState.set_speed_str (s : FanState) (token : String) : Bool × FanState :=
  if token = "off" then (true, s.set_speed FanSpeed.FAN_SPEED_OFF)
  else if token = "low" then (true, s.set_speed FanSpeed.FAN_SPEED_LOW)
  else if token = "medium" then (true, s.set_speed FanSpeed.FAN_SPEED_MEDIUM)
  else if token = "high" then (true, s.set_speed FanSpeed.FAN_SPEED_HIGH)
  else (false, s)

/-- Modelled from the spec: `TemplatableValue<V, T>` (automation.h is not
among the sources).  Spec section 3, lazy/templated value: a slot that is
either empty (unset), a fixed constant of the target type, or a function
from the context type to the target type evaluated at execution time. -/
inductive TemplatableValue (V T : Type)
  | empty
  | const (v : V)
  | func (f : T → V)

/-- Whether the slot holds anything; `play` only applies a slot whose
`has_value` is true, so the empty case is never read. -/
def TemplatableValue.has_value {V T : Type} : TemplatableValue V T → Bool
  | .empty => false
  | .const _ => true
  | .func _ => true

/-- Evaluate the slot against a context value: a constant ignores the
context, a function receives it; the empty case (guarded away by
`has_value`) yields the default value. -/
def TemplatableValue.value {V T : Type} [Inhabited V] :
    TemplatableValue V T → T → V
  | .empty, _ => default
  | .const v, _ => v
  | .func f, x => f x

/-- The three fan automation actions (fan_state.h lines 90 to 126):
`TurnOnAction` with its oscillating and speed slots, `TurnOffAction` and
`ToggleAction`.  Each C++ action holds a pointer to the shared `FanState`;
here the state is threaded explicitly through `play`. -/
inductive FanAction (T : Type)
  | turnOnAction (oscillating_ : TemplatableValue Bool T)
      (speed_ : TemplatableValue FanSpeed T)
  | turnOffAction
  | toggleAction

/-- Modelled from the spec: the `play_next(x)` call at the end of each
action's `play` (automation.h is not among the sources).  Spec section 4.2:
it forwards execution, with the same context, to the next node in the chain;
here it records a `nextPlayed` event, and `playChain` performs the walk. -/
def FanState.play_next_mark (s : FanState) : FanState :=
  { s with log := s.log ++ [FanEvent.nextPlayed] }

/-- The `play` body of each action, from fan_state.h.
`ToggleAction::play` (lines 132 to 136): set_state of the negated
get_state, then play_next.  `TurnOnAction::play` (lines 158 to 168):
set_state true; if the oscillating slot has a value, set_oscillating with
its evaluation at the context; if the speed slot has a value, set_speed with
its evaluation; then play_next.  `TurnOffAction::play` (lines 174 to 178):
set_state false, then play_next. -/
def FanAction.play {T : Type} : FanAction T → T → FanState → FanState
  | .toggleAction, _x, s => (s.set_state (!s.get_state)).play_next_mark
  | .turnOffAction, _x, s => (s.set_state false).play_next_mark
  | .turnOnAction osc sp, x, s =>
      let s1 := s.set_state true
      let s2 := if osc.has_value then s1.set_oscillating (osc.value x) else s1
      let s3 := if sp.has_value then s2.set_speed (sp.value x) else s2
      s3.play_next_mark

/-- Chain execution (spec section 4.2): a strictly sequential walk in which
each node completes its `play`, including its `play_next` hand-off, before
the next node runs with the same context value. -/
def playChain {T : Type} : List (FanAction T) → T → FanState → FanState
  | [], _, s => s
  | a :: rest, x, s => playChain rest x (a.play x s)

/-! Helper lemmas shared by several claims: the effect of each setter on
every field of the state. -/

/-- Field-by-field effect of `set_state`: the power value is stored, the
other attributes and the registered observers are untouched, and the log
grows by the stored mutation followed by one `observerCalled` event per
registered observer, in registration order. -/
theorem FanState.set_state_fields (s : FanState) (b : Bool) :
    (s.set_state b).state_ = b ∧
    (s.set_state b).oscillating_ = s.oscillating_ ∧
    (s.set_state b).speed_ = s.speed_ ∧
    (s.set_state b).traits_ = s.traits_ ∧
    (s.set_state b).callbacks_ = s.callbacks_ ∧
    (s.set_state b).log =
      s.log ++ FanEvent.stateStored b :: s.callbacks_.map FanEvent.observerCalled := by
  simp [FanState.set_state, FanState.state_callback_call]

/-- Field-by-field effect of `set_oscillating`, analogous to
`FanState.set_state_fields`. -/
theorem FanState.set_oscillating_fields (s : FanState) (b : Bool) :
    (s.set_oscillating b).state_ = s.state_ ∧
    (s.set_oscillating b).oscillating_ = b ∧
    (s.set_oscillating b).speed_ = s.speed_ ∧
    (s.set_oscillating b).traits_ = s.traits_ ∧
    (s.set_oscillating b).callbacks_ = s.callbacks_ ∧
    (s.set_oscillating b).log =
      s.log ++ FanEvent.oscillatingStored b :: s.callbacks_.map FanEvent.observerCalled := by
  simp [FanState.set_oscillating, FanState.state_callback_call]

/-- Field-by-field effect of the enum `set_speed`, analogous to
`FanState.set_state_fields`. -/
theorem FanState.set_speed_fields (s : FanState) (sp : FanSpeed) :
    (s.set_speed sp).state_ = s.state_ ∧
    (s.set_speed sp).oscillating_ = s.oscillating_ ∧
    (s.set_speed sp).speed_ = sp ∧
    (s.set_speed sp).traits_ = s.traits_ ∧
    (s.set_speed sp).callbacks_ = s.callbacks_ ∧
    (s.set_speed sp).log =
      s.log ++ FanEvent.speedStored sp :: s.callbacks_.map FanEvent.observerCalled := by
  simp [FanState.set_speed, FanState.state_callback_call]

/-- C1: for every boolean b, `set_state b` stores b, so `get_state` then
returns b; and during the call, before it returns, every observer registered
via `add_on_state_change_callback` is invoked exactly once, in registration
order: the events appended to the log are the stored mutation followed by
exactly the registered observer ids, each once, in list order. -/
theorem set_state_get_state_and_observer_fanout (s : FanState) (b : Bool) :
    (s.set_state b).get_state = b ∧
    (s.set_state b).log =
      s.log ++ FanEvent.stateStored b :: s.callbacks_.map FanEvent.observerCalled := by
  exact ⟨(FanState.set_state_fields s b).1, (FanState.set_state_fields s b).2.2.2.2.2⟩

/-- C7: a freshly constructed `FanState` has power defaulting to false,
oscillation defaulting to false, and speed defaulting to
`FAN_SPEED_HIGH`, the HIGH default holding even though power is off. -/
theorem fresh_fan_state_defaults :
    FanState.fresh.get_state = false ∧
    FanState.fresh.is_oscillating = false ∧
    FanState.fresh.get_speed = FanSpeed.FAN_SPEED_HIGH := by
  exact ⟨rfl, rfl, rfl⟩

/-- C8: `set_state b` stores b and fires the change notification to all
registered observers even when b equals the previously stored power value:
redundant writes are not suppressed. -/
theorem set_state_redundant_write_still_notifies (s : FanState) (b : Bool)
    (_h : s.get_state = b) :
    (s.set_state b).get_state = b ∧
    (s.set_state b).log =
      s.log ++ FanEvent.stateStored b :: s.callbacks_.map FanEvent.observerCalled := by
  exact ⟨(FanState.set_state_fields s b).1, (FanState.set_state_fields s b).2.2.2.2.2⟩

/-- Witness for C8: a state already powered on, with one registered
observer, written with the same value true: the write is stored and the
observer is notified anyway. -/
theorem set_state_redundant_write_still_notifies_witness :
    (FanState.set_state { state_ := true, callbacks_ := [7] } true).get_state = true ∧
    (FanState.set_state { state_ := true, callbacks_ := [7] } true).log =
      ({ state_ := true, callbacks_ := [7] } : FanState).log ++
        FanEvent.stateStored true ::
          (({ state_ := true, callbacks_ := [7] } : FanState).callbacks_.map
            FanEvent.observerCalled) :=
  set_state_redundant_write_still_notifies
    { state_ := true, callbacks_ := [7] } true (by decide)

/-- C3: executing `ToggleAction::play` twice in succession on the same fan
state restores the original power value returned by `get_state`: toggle is
an involution on the power attribute. -/
theorem toggle_twice_restores_power {T : Type} (x : T) (s : FanState) :
    (FanAction.play FanAction.toggleAction x
      (FanAction.play FanAction.toggleAction x s)).get_state = s.get_state := by
  simp [FanAction.play, FanState.set_state, FanState.get_state,
    FanState.state_callback_call, FanState.play_next_mark]

/-- C2: the textual speed setter maps each recognized token to exactly one
`FanSpeed` value applied via the enum setter, with "medium" mapping exactly
as `set_speed FAN_SPEED_MEDIUM`; every unrecognized token returns false and
leaves the state, speed included, completely unmutated. -/
theorem set_speed_str_recognized_or_fails (s : FanState) :
    s.set_speed_str "medium" = (true, s.set_speed FanSpeed.FAN_SPEED_MEDIUM) ∧
    (∀ tok : String, tok ∈ (["off", "low", "medium", "high"] : List String) →
      ∃ sp : FanSpeed, s.set_speed_str tok = (true, s.set_speed sp)) ∧
    (∀ tok : String, tok ∉ (["off", "low", "medium", "high"] : List String) →
      s.set_speed_str tok = (false, s)) := by
  refine ⟨by simp [FanState.set_speed_str], ?_, ?_⟩
  · intro tok h
    simp only [List.mem_cons, List.not_mem_nil, or_false] at h
    rcases h with h | h | h | h <;> subst h
    · exact ⟨FanSpeed.FAN_SPEED_OFF, by simp [FanState.set_speed_str]⟩
    · exact ⟨FanSpeed.FAN_SPEED_LOW, by simp [FanState.set_speed_str]⟩
    · exact ⟨FanSpeed.FAN_SPEED_MEDIUM, by simp [FanState.set_speed_str]⟩
    · exact ⟨FanSpeed.FAN_SPEED_HIGH, by simp [FanState.set_speed_str]⟩
  · intro tok h
    simp only [List.mem_cons, List.not_mem_nil, or_false] at h
    push_neg at h
    simp [FanState.set_speed_str, h.1, h.2.1, h.2.2.1, h.2.2.2]

/-- Witness for C2: on a fresh state, "medium" is applied exactly as the
enum setter with FAN_SPEED_MEDIUM would be, and "bogus" fails, returning
false and the state unchanged. -/
theorem set_speed_str_recognized_or_fails_witness :
    FanState.fresh.set_speed_str "medium"
      = (true, FanState.fresh.set_speed FanSpeed.FAN_SPEED_MEDIUM) ∧
    FanState.fresh.set_speed_str "bogus" = (false, FanState.fresh) :=
  ⟨(set_speed_str_recognized_or_fails FanState.fresh).1,
   (set_speed_str_recognized_or_fails FanState.fresh).2.2 "bogus" (by decide)⟩

/-- C4: executing `TurnOnAction::play` with an unset speed slot leaves
`get_speed` at its value from before the execution, an unset oscillation
slot likewise leaves `is_oscillating` unchanged, and in every case
`get_state` is forced to true. -/
theorem turn_on_unset_slots_frame {T : Type} (x : T)
    (osc : TemplatableValue Bool T) (sp : TemplatableValue FanSpeed T)
    (s : FanState) :
    (sp.has_value = false →
      ((FanAction.turnOnAction osc sp).play x s).get_speed = s.get_speed) ∧
    (osc.has_value = false →
      ((FanAction.turnOnAction osc sp).play x s).is_oscillating = s.is_oscillating) ∧
    ((FanAction.turnOnAction osc sp).play x s).get_state = true := by
  cases osc <;> cases sp <;>
    simp [FanAction.play, TemplatableValue.has_value, FanState.set_state,
      FanState.set_oscillating, FanState.set_speed, FanState.state_callback_call,
      FanState.play_next_mark, FanState.get_state, FanState.get_speed,
      FanState.is_oscillating]

/-- Witness for C4: a turn-on action with both slots unset, played on a
fresh state with context 0, leaves speed and oscillation at their prior
values and forces power on. -/
theorem turn_on_unset_slots_frame_witness :
    ((FanAction.turnOnAction (TemplatableValue.empty : TemplatableValue Bool Nat)
        TemplatableValue.empty).play 0 FanState.fresh).get_speed
      = FanState.fresh.get_speed ∧
    ((FanAction.turnOnAction (TemplatableValue.empty : TemplatableValue Bool Nat)
        TemplatableValue.empty).play 0 FanState.fresh).is_oscillating
      = FanState.fresh.is_oscillating ∧
    ((FanAction.turnOnAction (TemplatableValue.empty : TemplatableValue Bool Nat)
        TemplatableValue.empty).play 0 FanState.fresh).get_state = true :=
  ⟨(turn_on_unset_slots_frame 0 TemplatableValue.empty TemplatableValue.empty
      FanState.fresh).1 (by decide),
   (turn_on_unset_slots_frame 0 TemplatableValue.empty TemplatableValue.empty
      FanState.fresh).2.1 (by decide),
   (turn_on_unset_slots_frame 0 TemplatableValue.empty TemplatableValue.empty
      FanState.fresh).2.2⟩

/-- C5: when the turn-on action's speed slot is configured with a function,
playing it with context x applies the function evaluated exactly at x: the
resulting speed is f x, and a `speedStored (f x)` event, recorded by the
`set_speed` call, is in the log. -/
theorem turn_on_speed_function_applied {T : Type} (x : T) (f : T → FanSpeed)
    (osc : TemplatableValue Bool T) (s : FanState) :
    ((FanAction.turnOnAction osc (TemplatableValue.func f)).play x s).get_speed
      = f x ∧
    FanEvent.speedStored (f x) ∈
      ((FanAction.turnOnAction osc (TemplatableValue.func f)).play x s).log := by
  cases osc <;>
    simp [FanAction.play, TemplatableValue.has_value, TemplatableValue.value,
      FanState.set_state, FanState.set_oscillating, FanState.set_speed,
      FanState.state_callback_call, FanState.play_next_mark, FanState.get_speed]

/-- C6: the chain TurnOn then Toggle ends with power false, while the
oscillation and speed mutations made by TurnOn, when its slots are
configured, remain applied in the final state. -/
theorem turn_on_then_toggle_chain {T : Type} (x : T)
    (osc : TemplatableValue Bool T) (sp : TemplatableValue FanSpeed T)
    (s : FanState) :
    (playChain [FanAction.turnOnAction osc sp, FanAction.toggleAction] x
      s).get_state = false ∧
    (osc.has_value = true →
      (playChain [FanAction.turnOnAction osc sp, FanAction.toggleAction] x
        s).is_oscillating = osc.value x) ∧
    (sp.has_value = true →
      (playChain [FanAction.turnOnAction osc sp, FanAction.toggleAction] x
        s).get_speed = sp.value x) := by
  cases osc <;> cases sp <;>
    simp [playChain, FanAction.play, TemplatableValue.has_value,
      TemplatableValue.value, FanState.set_state, FanState.set_oscillating,
      FanState.set_speed, FanState.state_callback_call, FanState.play_next_mark,
      FanState.get_state, FanState.get_speed, FanState.is_oscillating]

/-- Witness for C6: the chain TurnOn (oscillating true, speed LOW) then
Toggle, played on a fresh state with context 0, ends powered off with the
oscillation and speed values from TurnOn still applied. -/
theorem turn_on_then_toggle_chain_witness :
    (playChain [FanAction.turnOnAction (TemplatableValue.const true)
        (TemplatableValue.const FanSpeed.FAN_SPEED_LOW), FanAction.toggleAction]
      (0 : Nat) FanState.fresh).get_state = false ∧
    (playChain [FanAction.turnOnAction (TemplatableValue.const true)
        (TemplatableValue.const FanSpeed.FAN_SPEED_LOW), FanAction.toggleAction]
      (0 : Nat) FanState.fresh).is_oscillating
      = (TemplatableValue.const true : TemplatableValue Bool Nat).value 0 ∧
    (playChain [FanAction.turnOnAction (TemplatableValue.const true)
        (TemplatableValue.const FanSpeed.FAN_SPEED_LOW), FanAction.toggleAction]
      (0 : Nat) FanState.fresh).get_speed
      = (TemplatableValue.const FanSpeed.FAN_SPEED_LOW :
          TemplatableValue FanSpeed Nat).value 0 :=
  ⟨(turn_on_then_toggle_chain 0 (TemplatableValue.const true)
      (TemplatableValue.const FanSpeed.FAN_SPEED_LOW) FanState.fresh).1,
   (turn_on_then_toggle_chain 0 (TemplatableValue.const true)
      (TemplatableValue.const FanSpeed.FAN_SPEED_LOW) FanState.fresh).2.1 (by decide),
   (turn_on_then_toggle_chain 0 (TemplatableValue.const true)
      (TemplatableValue.const FanSpeed.FAN_SPEED_LOW) FanState.fresh).2.2 (by decide)⟩

/-- C9: `TurnOffAction::play` sets power to false, leaves oscillation, speed
and the traits descriptor unchanged, and forwards the same context value to
the rest of the chain. -/
theorem turn_off_frame_and_forwards {T : Type} (x : T)
    (rest : List (FanAction T)) (s : FanState) :
    ((FanAction.turnOffAction : FanAction T).play x s).get_state = false ∧
    ((FanAction.turnOffAction : FanAction T).play x s).is_oscillating
      = s.is_oscillating ∧
    ((FanAction.turnOffAction : FanAction T).play x s).get_speed = s.get_speed ∧
    ((FanAction.turnOffAction : FanAction T).play x s).get_traits = s.get_traits ∧
    playChain (FanAction.turnOffAction :: rest) x s
      = playChain rest x ((FanAction.turnOffAction : FanAction T).play x s) := by
  refine ⟨?_, ?_, ?_, ?_, rfl⟩ <;>
    simp [FanAction.play, FanState.set_state, FanState.state_callback_call,
      FanState.play_next_mark, FanState.get_state, FanState.get_speed,
      FanState.is_oscillating, FanState.get_traits]

/-- Observer invocations are never the hand-off event: a list of
`observerCalled` events contains no `nextPlayed`. -/
theorem count_nextPlayed_map_observerCalled (l : List Nat) :
    (l.map FanEvent.observerCalled).count FanEvent.nextPlayed = 0 := by
  induction l with
  | nil => rfl
  | cons a t ih => simp [List.count_cons, ih]

/-- C10: in every execution of `TurnOnAction::play` the events occur in the
fixed order set_state true first, then set_oscillating only if the
oscillation slot is configured, then set_speed only if the speed slot is
configured, and the hand-off to the next action happens exactly once, after
all mutations: the log grows by exactly that sequence, ending in the single
new `nextPlayed` event. -/
theorem turn_on_play_event_order {T : Type} (x : T)
    (osc : TemplatableValue Bool T) (sp : TemplatableValue FanSpeed T)
    (s : FanState) :
    ((FanAction.turnOnAction osc sp).play x s).log =
      s.log ++
        ((FanEvent.stateStored true :: s.callbacks_.map FanEvent.observerCalled) ++
          (if osc.has_value then
            FanEvent.oscillatingStored (osc.value x) ::
              s.callbacks_.map FanEvent.observerCalled
          else []) ++
          (if sp.has_value then
            FanEvent.speedStored (sp.value x) ::
              s.callbacks_.map FanEvent.observerCalled
          else []) ++
          [FanEvent.nextPlayed]) ∧
    ((FanAction.turnOnAction osc sp).play x s).log.count FanEvent.nextPlayed =
      s.log.count FanEvent.nextPlayed + 1 := by
  cases osc <;> cases sp <;>
    constructor <;>
    simp [FanAction.play, TemplatableValue.has_value, TemplatableValue.value,
      FanState.set_state, FanState.set_oscillating, FanState.set_speed,
      FanState.state_callback_call, FanState.play_next_mark,
      List.count_append, List.count_cons, count_nextPlayed_map_observerCalled]
